import Mathlib

/-!
Shallow embedding of the w1-gpio bus master driver
(drivers/w1/masters/w1-gpio.c).

The driver bit-bangs the 1-Wire physical layer over up to three GPIO
lines: index 0 is the data line, index 1 the strong-pullup line, index 2
the pull-down line.  We model the mutable platform data
(`strong_pullup_duration` plus the logical level of each line) as an
explicit state, each GPIO side effect as an event in a trace, and the
probe routine as a function from an acquisition environment to
`Except Int`, mirroring the C control flow statement by statement.
-/

namespace W1Gpio

/-- The three GPIO lines a configuration may use (descriptor indices
0 = data, 1 = strong pull-up, 2 = pull-down). -/
inductive Line where
  | data
  | strongPullup
  | pulldown
deriving DecidableEq, Repr

/-- Observable side effects of the driver operations: a `gpiod_set_value`
call on some line, an `msleep`, the "strong pull up requested, but not
available" printk, and `w1_remove_master_device`. -/
inductive Event where
  | gpiodSet (line : Line) (value : Int)
  | msleep (ms : Int)
  | logUnavailable
  | removeMasterDevice
deriving DecidableEq, Repr

/-- Which optional GPIO descriptors are non-NULL in the platform data
(`strong_pullup_gpiod` and `pulldown_gpiod`; `gpiod` itself is always
present after a successful probe). -/
structure Config where
  has_strong_pullup : Bool
  has_pulldown : Bool
deriving DecidableEq, Repr

/-- Mutable state carried by `struct w1_gpio_platform_data` together with
the logical level of each line (true = logically active / high). -/
structure W1State where
  strong_pullup_duration : Int
  data_level : Bool
  strong_pullup_level : Bool
  pulldown_level : Bool
deriving DecidableEq, Repr

/-- Model of `gpiod_set_value`: drive the given line to the logical level
of `value` (any nonzero value is active). -/
def gpiodSetValue (s : W1State) (l : Line) (value : Int) : W1State :=
  match l with
  | Line.data => { s with data_level := value != 0 }
  | Line.strongPullup => { s with strong_pullup_level := value != 0 }
  | Line.pulldown => { s with pulldown_level := value != 0 }

/-- Model of `gpiod_get_value` on a line: 1 when the level is active,
0 otherwise. -/
def gpiodGetValue (s : W1State) (l : Line) : Int :=
  match l with
  | Line.data => if s.data_level then 1 else 0
  | Line.strongPullup => if s.strong_pullup_level then 1 else 0
  | Line.pulldown => if s.pulldown_level then 1 else 0

/-- Result of one `w1_gpio_set_pullup` call: the updated platform data
state, the trace of side effects, and the returned u8 status. -/
structure PullupOut where
  st : W1State
  events : List Event
  ret : Nat
deriving DecidableEq, Repr

/-- Embedding of `w1_gpio_set_pullup` (w1-gpio.c lines 21-42).
A nonzero `delay` stores the duration; a zero `delay` pulses the strong
pull-up line for the stored duration when one is armed and the line
exists, logs otherwise, and always clears the stored duration.  Always
returns 0. -/
def w1_gpio_set_pullup (cfg : Config) (s : W1State) (delay : Int) : PullupOut :=
  if delay != 0 then
    { st := { s with strong_pullup_duration := delay }, events := [], ret := 0 }
  else
    if s.strong_pullup_duration != 0 then
      if cfg.has_strong_pullup then
        let s1 := gpiodSetValue s Line.strongPullup 1
        let s2 := gpiodSetValue s1 Line.strongPullup 0
        { st := { s2 with strong_pullup_duration := 0 },
          events := [Event.gpiodSet Line.strongPullup 1,
                     Event.msleep s.strong_pullup_duration,
                     Event.gpiodSet Line.strongPullup 0],
          ret := 0 }
      else
        { st := { s with strong_pullup_duration := 0 },
          events := [Event.logUnavailable],
          ret := 0 }
    else
      { st := { s with strong_pullup_duration := 0 }, events := [], ret := 0 }

/-- Embedding of `w1_gpio_write_bit` (w1-gpio.c lines 44-53).
With a pull-down line the driver writes `!bit` to it; otherwise it
writes `bit` to the data line. -/
def w1_gpio_write_bit (cfg : Config) (s : W1State) (bit : Nat) :
    W1State × List Event :=
  if cfg.has_pulldown then
    (gpiodSetValue s Line.pulldown (if bit = 0 then 1 else 0),
     [Event.gpiodSet Line.pulldown (if bit = 0 then 1 else 0)])
  else
    (gpiodSetValue s Line.data (Int.ofNat bit),
     [Event.gpiodSet Line.data (Int.ofNat bit)])

/-- Embedding of `w1_gpio_read_bit` (w1-gpio.c lines 55-60): returns the
unchanged state and `gpiod_get_value(gpiod) ? 1 : 0`. -/
def w1_gpio_read_bit (s : W1State) : W1State × Nat :=
  (s, if gpiodGetValue s Line.data != 0 then 1 else 0)

/-- Embedding of `w1_gpio_remove` (w1-gpio.c lines 153-164): deactivate
the strong pull-up line when present, then remove the master device;
always returns 0. -/
def w1_gpio_remove (cfg : Config) (s : W1State) :
    W1State × List Event × Int :=
  if cfg.has_strong_pullup then
    (gpiodSetValue s Line.strongPullup 0,
     [Event.gpiodSet Line.strongPullup 0, Event.removeMasterDevice], 0)
  else
    (s, [Event.removeMasterDevice], 0)

/-- Outcome of resolving one GPIO descriptor for this device: the line
exists and is acquired, the line is not described at all, or acquisition
fails with an error code. -/
inductive GpioAcq where
  | ok
  | absent
  | err (e : Int)
deriving DecidableEq, Repr

/-- The `gpiod_flags` values the probe routine uses for the data line. -/
inductive GpiodFlags where
  | out_low_open_drain
  | out_low
  | gpio_in
deriving DecidableEq, Repr

def ENOENT : Int := 2
def ENXIO : Int := 6
def ENOMEM : Int := 12

/-- Model of `devm_gpiod_get_index_optional`: an absent line yields a
NULL descriptor (`false`) instead of an error. -/
def devm_gpiod_get_index_optional (a : GpioAcq) : Except Int Bool :=
  match a with
  | GpioAcq.ok => Except.ok true
  | GpioAcq.absent => Except.ok false
  | GpioAcq.err e => Except.error e

/-- Model of `devm_gpiod_get_index`: an absent line is an `-ENOENT`
error, so the returned descriptor is never NULL. -/
def devm_gpiod_get_index (a : GpioAcq) : Except Int Bool :=
  match a with
  | GpioAcq.ok => Except.ok true
  | GpioAcq.absent => Except.error (-ENOENT)
  | GpioAcq.err e => Except.error e

/-- Environment of one probe call: device-tree population, presence of
the `linux,open-drain` property, presence of static platform data,
allocation outcomes, the resolution outcome of each GPIO index, and the
result of `w1_add_master_device` (0 = success). -/
structure ProbeEnv where
  dt_populated : Bool
  open_drain_prop : Bool
  static_pdata : Bool
  pdata_alloc_ok : Bool
  master_alloc_ok : Bool
  gpio_data : GpioAcq
  gpio_strong_pullup : GpioAcq
  gpio_pulldown : GpioAcq
  add_master_err : Int
deriving DecidableEq, Repr

/-- What a successful probe leaves behind: which optional descriptors
are present, the flags used to acquire the data line, whether
`gpiod_direction_output(gpiod, 1)` was applied, and whether the
`set_pullup` operation was installed in the bus master structure. -/
structure ProbeResult where
  has_pulldown : Bool
  has_strong_pullup : Bool
  data_gflags : GpiodFlags
  data_driven_high : Bool
  set_pullup_advertised : Bool
deriving DecidableEq, Repr

/-- Embedding of `w1_gpio_probe` (w1-gpio.c lines 70-151), following the
C control flow: default open-drain flags, device-tree handling with the
`linux,open-drain` override, the missing-pdata and allocation checks,
optional pull-down acquisition (index 2), the input-only override, data
line acquisition (index 0), strong pull-up acquisition (index 1, not
optional in this code), the initial drive-high when no pull-down line
exists, conditional `set_pullup` advertisement, and master registration. -/
def w1_gpio_probe (env : ProbeEnv) : Except Int ProbeResult :=
  let gflags : GpiodFlags := GpiodFlags.out_low_open_drain
  if env.dt_populated && !env.pdata_alloc_ok then
    Except.error (-ENOMEM)
  else
    let gflags :=
      if env.dt_populated && env.open_drain_prop then GpiodFlags.out_low
      else gflags
    let pdata_present := env.dt_populated || env.static_pdata
    if !pdata_present then
      Except.error (Int.neg ENXIO)
    else if !env.master_alloc_ok then
      Except.error (-ENOMEM)
    else
      match devm_gpiod_get_index_optional env.gpio_pulldown with
      | Except.error e => Except.error e
      | Except.ok has_pulldown =>
        let gflags := if has_pulldown then GpiodFlags.gpio_in else gflags
        match devm_gpiod_get_index env.gpio_data with
        | Except.error e => Except.error e
        | Except.ok _ =>
          match devm_gpiod_get_index env.gpio_strong_pullup with
          | Except.error e => Except.error e
          | Except.ok has_strong_pullup =>
            let driven_high := !has_pulldown
            let advertised :=
              gflags == GpiodFlags.out_low_open_drain || has_strong_pullup
            if env.add_master_err != 0 then
              Except.error env.add_master_err
            else
              Except.ok
                { has_pulldown := has_pulldown,
                  has_strong_pullup := has_strong_pullup,
                  data_gflags := gflags,
                  data_driven_high := driven_high,
                  set_pullup_advertised := advertised }

/-- A bit-level transport operation invoked by the w1 core between
pull-up requests. -/
inductive BitOp where
  | readBit
  | writeBit (b : Nat)
deriving DecidableEq, Repr

/-- Run a sequence of bit operations, threading the state. -/
def runBitOps (cfg : Config) (s : W1State) : List BitOp → W1State
  | [] => s
  | BitOp.readBit :: rest => runBitOps cfg (w1_gpio_read_bit s).1 rest
  | BitOp.writeBit b :: rest =>
      runBitOps cfg (w1_gpio_write_bit cfg s b).1 rest

/-- A probe environment in which everything succeeds and all three GPIO
lines are described. -/
def envAllOk : ProbeEnv :=
  { dt_populated := true, open_drain_prop := false, static_pdata := false,
    pdata_alloc_ok := true, master_alloc_ok := true,
    gpio_data := GpioAcq.ok, gpio_strong_pullup := GpioAcq.ok,
    gpio_pulldown := GpioAcq.ok, add_master_err := 0 }

/-- A sample idle platform-data state. -/
def s0 : W1State :=
  { strong_pullup_duration := 0, data_level := false,
    strong_pullup_level := false, pulldown_level := false }

/-- The non-optional getter never hands back a NULL descriptor: it
succeeds exactly when the line is acquired, and then the presence flag
is true. -/
theorem devm_gpiod_get_index_ok_iff (a : GpioAcq) (b : Bool) :
    devm_gpiod_get_index a = Except.ok b ↔ (a = GpioAcq.ok ∧ b = true) := by
  cases a <;> simp [devm_gpiod_get_index]

/-- Structural description of every successful probe: the strong
pull-up descriptor is always present, the data line is driven high
exactly when no pull-down line exists, the data-line flags follow the
pull-down/open-drain policy, and `set_pullup` is advertised by the
disjunction at w1-gpio.c line 139. -/
theorem probe_ok_spec (env : ProbeEnv) (r : ProbeResult)
    (h : w1_gpio_probe env = Except.ok r) :
    r.has_strong_pullup = true ∧
    r.data_driven_high = !r.has_pulldown ∧
    r.data_gflags =
      (if r.has_pulldown then GpiodFlags.gpio_in
       else if env.dt_populated && env.open_drain_prop then GpiodFlags.out_low
       else GpiodFlags.out_low_open_drain) ∧
    r.set_pullup_advertised =
      (r.data_gflags == GpiodFlags.out_low_open_drain || r.has_strong_pullup) := by
  unfold w1_gpio_probe at h
  simp only [] at h
  repeat' split at h
  all_goals cases h
  all_goals simp_all [devm_gpiod_get_index_ok_iff]
  all_goals (split <;> simp_all)

/-- C1: for every configuration, set_pullup with a nonzero delay stores
that delay as the pending strong-pullup duration and performs no GPIO
action; a subsequent set_pullup(0), when a duration is armed and a
strong-pullup line is configured, drives the strong-pullup line active,
blocks for the stored duration, and then deactivates the line. -/
theorem set_pullup_arm_then_pulse (cfg : Config) (s : W1State) (d : Int)
    (hd : d ≠ 0) :
    (w1_gpio_set_pullup cfg s d).st.strong_pullup_duration = d ∧
    (w1_gpio_set_pullup cfg s d).events = [] ∧
    (cfg.has_strong_pullup = true →
      (w1_gpio_set_pullup cfg (w1_gpio_set_pullup cfg s d).st 0).events =
        [Event.gpiodSet Line.strongPullup 1, Event.msleep d,
         Event.gpiodSet Line.strongPullup 0] ∧
      (w1_gpio_set_pullup cfg (w1_gpio_set_pullup cfg s d).st
        0).st.strong_pullup_level = false) := by
  refine ⟨?_, ?_, ?_⟩
  · simp [w1_gpio_set_pullup, hd]
  · simp [w1_gpio_set_pullup, hd]
  · intro hsp
    simp [w1_gpio_set_pullup, gpiodSetValue, hd, hsp]

/-- Witness for C1 at a configuration with a strong-pullup line, the
idle state, and delay 200. -/
theorem set_pullup_arm_then_pulse_witness :
    (w1_gpio_set_pullup ⟨true, false⟩ s0 200).st.strong_pullup_duration = 200 ∧
    (w1_gpio_set_pullup ⟨true, false⟩ s0 200).events = [] ∧
    (w1_gpio_set_pullup ⟨true, false⟩
        (w1_gpio_set_pullup ⟨true, false⟩ s0 200).st 0).events =
      [Event.gpiodSet Line.strongPullup 1, Event.msleep 200,
       Event.gpiodSet Line.strongPullup 0] ∧
    (w1_gpio_set_pullup ⟨true, false⟩
        (w1_gpio_set_pullup ⟨true, false⟩ s0 200).st
      0).st.strong_pullup_level = false :=
  ⟨(set_pullup_arm_then_pulse ⟨true, false⟩ s0 200 (by decide)).1,
   (set_pullup_arm_then_pulse ⟨true, false⟩ s0 200 (by decide)).2.1,
   ((set_pullup_arm_then_pulse ⟨true, false⟩ s0 200 (by decide)).2.2 rfl).1,
   ((set_pullup_arm_then_pulse ⟨true, false⟩ s0 200 (by decide)).2.2 rfl).2⟩

/-- C2: after any set_pullup(0) call the stored strong-pullup duration
is zero, for every configuration and every prior state, so a second
set_pullup(0) with no intervening nonzero arm performs no pulse. -/
theorem set_pullup_zero_clears_duration (cfg : Config) (s : W1State) :
    (w1_gpio_set_pullup cfg s 0).st.strong_pullup_duration = 0 ∧
    (w1_gpio_set_pullup cfg (w1_gpio_set_pullup cfg s 0).st 0).events = [] := by
  by_cases hd : s.strong_pullup_duration = 0 <;>
    by_cases hsp : cfg.has_strong_pullup <;>
    simp [w1_gpio_set_pullup, gpiodSetValue, hd, hsp]

/-- C3: for every successfully probed configuration, the set_pullup
capability is advertised to the bus-master framework if and only if a
strong-pullup line is configured or the data line ended up in open-drain
mode. -/
theorem set_pullup_capability_iff (env : ProbeEnv) (r : ProbeResult)
    (h : w1_gpio_probe env = Except.ok r) :
    r.set_pullup_advertised = true ↔
      (r.data_gflags = GpiodFlags.out_low_open_drain ∨
       r.has_strong_pullup = true) := by
  obtain ⟨h1, _, _, h4⟩ := probe_ok_spec env r h
  simp [h4, h1]

/-- Witness for C3 at an environment where every acquisition succeeds. -/
theorem set_pullup_capability_iff_witness :
    (⟨true, true, GpiodFlags.gpio_in, false, true⟩ :
        ProbeResult).set_pullup_advertised = true ↔
      ((⟨true, true, GpiodFlags.gpio_in, false, true⟩ :
          ProbeResult).data_gflags = GpiodFlags.out_low_open_drain ∨
       (⟨true, true, GpiodFlags.gpio_in, false, true⟩ :
          ProbeResult).has_strong_pullup = true) :=
  set_pullup_capability_iff envAllOk
    ⟨true, true, GpiodFlags.gpio_in, false, true⟩ rfl

/-- C4: in this code the strong-pullup line (index 1) is acquired with
the non-optional getter, so probing with that line absent fails with
-ENOENT even though everything else is fine, while an absent pull-down
line (index 2) is tolerated; a successfully attached configuration can
therefore never lack the strong-pullup descriptor, contradicting the
claim (and leaving the NULL-descriptor guards in the driver dead). -/
theorem probe_strong_pullup_line_required :
    w1_gpio_probe { envAllOk with gpio_strong_pullup := GpioAcq.absent } =
      Except.error (-ENOENT) ∧
    w1_gpio_probe { envAllOk with gpio_pulldown := GpioAcq.absent } =
      Except.ok { has_pulldown := false, has_strong_pullup := true,
                  data_gflags := GpiodFlags.out_low_open_drain,
                  data_driven_high := true, set_pullup_advertised := true } :=
  ⟨rfl, rfl⟩

/-- C5: for every bit value, with a pull-down line configured write_bit
drives the pull-down line to the logical inverse of the bit and does not
touch the data line; without one it drives the data line to exactly the
bit. -/
theorem write_bit_semantics (cfg : Config) (s : W1State) (b : Nat)
    (hb : b ≤ 1) :
    (cfg.has_pulldown = true →
      (w1_gpio_write_bit cfg s b).1.pulldown_level = (b == 0) ∧
      (w1_gpio_write_bit cfg s b).1.data_level = s.data_level ∧
      (w1_gpio_write_bit cfg s b).2 =
        [Event.gpiodSet Line.pulldown (if b = 0 then 1 else 0)]) ∧
    (cfg.has_pulldown = false →
      ((if (w1_gpio_write_bit cfg s b).1.data_level then 1 else 0) = b) ∧
      (w1_gpio_write_bit cfg s b).1.pulldown_level = s.pulldown_level ∧
      (w1_gpio_write_bit cfg s b).2 =
        [Event.gpiodSet Line.data (Int.ofNat b)]) := by
  interval_cases b <;>
    by_cases hpd : cfg.has_pulldown <;>
    simp [w1_gpio_write_bit, gpiodSetValue, hpd]

/-- Witness for C5 at bit 1 in a configuration with a pull-down line. -/
theorem write_bit_semantics_witness :
    (w1_gpio_write_bit ⟨false, true⟩ s0 1).1.pulldown_level = ((1 : Nat) == 0) ∧
    (w1_gpio_write_bit ⟨false, true⟩ s0 1).1.data_level = s0.data_level ∧
    ((if (w1_gpio_write_bit ⟨false, false⟩ s0 1).1.data_level then 1 else 0) =
      (1 : Nat)) :=
  ⟨((write_bit_semantics ⟨false, true⟩ s0 1 (by decide)).1 rfl).1,
   ((write_bit_semantics ⟨false, true⟩ s0 1 (by decide)).1 rfl).2.1,
   ((write_bit_semantics ⟨false, false⟩ s0 1 (by decide)).2 rfl).1⟩

/-- C6: read_bit returns 1 exactly when the data line is logically high
and 0 exactly when it is not, leaves the state untouched, and always
returns. -/
theorem read_bit_semantics (s : W1State) :
    (w1_gpio_read_bit s).1 = s ∧
    ((w1_gpio_read_bit s).2 = 1 ↔ s.data_level = true) ∧
    ((w1_gpio_read_bit s).2 = 0 ↔ s.data_level = false) := by
  cases hs : s.data_level <;>
    simp [w1_gpio_read_bit, gpiodGetValue, hs]

/-- C7: the data-line mode chosen by probe follows the three-way policy:
input-only with a pull-down line, open-drain default-low and initially
driven high without one when the externally-open-drain flag is unset,
and plain driven output default-low when the flag is set. -/
theorem probe_data_line_policy (env : ProbeEnv) (r : ProbeResult)
    (h : w1_gpio_probe env = Except.ok r) :
    (r.has_pulldown = true → r.data_gflags = GpiodFlags.gpio_in) ∧
    (r.has_pulldown = false →
      (env.dt_populated && env.open_drain_prop) = false →
      r.data_gflags = GpiodFlags.out_low_open_drain ∧
      r.data_driven_high = true) ∧
    (r.has_pulldown = false →
      (env.dt_populated && env.open_drain_prop) = true →
      r.data_gflags = GpiodFlags.out_low) := by
  obtain ⟨_, h2, h3, _⟩ := probe_ok_spec env r h
  refine ⟨?_, ?_, ?_⟩
  · intro hpd
    simp [hpd] at h3
    exact h3
  · intro hpd hod
    simp [hpd, hod] at h2 h3
    exact ⟨h3, h2⟩
  · intro hpd hod
    simp [hpd, hod] at h3
    exact h3

/-- Witness for C7 at an environment with no pull-down line and the
open-drain flag unset. -/
theorem probe_data_line_policy_witness :
    (⟨false, true, GpiodFlags.out_low_open_drain, true, true⟩ :
        ProbeResult).data_gflags = GpiodFlags.out_low_open_drain ∧
    (⟨false, true, GpiodFlags.out_low_open_drain, true, true⟩ :
        ProbeResult).data_driven_high = true :=
  (probe_data_line_policy { envAllOk with gpio_pulldown := GpioAcq.absent }
      ⟨false, true, GpiodFlags.out_low_open_drain, true, true⟩ rfl).2.1
    rfl rfl

/-- C8: set_pullup returns success (0) on every invocation; when a
duration is armed and no strong-pullup line exists, a zero-delay call
only logs the unavailable request, clears the duration, and leaves the
strong-pullup level untouched. -/
theorem set_pullup_always_succeeds (cfg : Config) (s : W1State) (d : Int) :
    (w1_gpio_set_pullup cfg s d).ret = 0 ∧
    (cfg.has_strong_pullup = false → s.strong_pullup_duration ≠ 0 →
      (w1_gpio_set_pullup cfg s 0).events = [Event.logUnavailable] ∧
      (w1_gpio_set_pullup cfg s 0).st.strong_pullup_duration = 0 ∧
      (w1_gpio_set_pullup cfg s 0).st.strong_pullup_level =
        s.strong_pullup_level) := by
  constructor
  · by_cases hd : d = 0 <;> by_cases hdur : s.strong_pullup_duration = 0 <;>
      by_cases hsp : cfg.has_strong_pullup <;>
      simp [w1_gpio_set_pullup, gpiodSetValue, hd, hdur, hsp]
  · intro hsp hdur
    simp [w1_gpio_set_pullup, hsp, hdur]

/-- Witness for C8 at a configuration without a strong-pullup line and
an armed duration of 5. -/
theorem set_pullup_always_succeeds_witness :
    (w1_gpio_set_pullup ⟨false, false⟩
        { s0 with strong_pullup_duration := 5 } 0).ret = 0 ∧
    (w1_gpio_set_pullup ⟨false, false⟩
        { s0 with strong_pullup_duration := 5 } 0).events =
      [Event.logUnavailable] ∧
    (w1_gpio_set_pullup ⟨false, false⟩
        { s0 with strong_pullup_duration := 5 }
      0).st.strong_pullup_duration = 0 :=
  ⟨(set_pullup_always_succeeds ⟨false, false⟩
      { s0 with strong_pullup_duration := 5 } 0).1,
   ((set_pullup_always_succeeds ⟨false, false⟩
      { s0 with strong_pullup_duration := 5 } 0).2 rfl (by decide)).1,
   ((set_pullup_always_succeeds ⟨false, false⟩
      { s0 with strong_pullup_duration := 5 } 0).2 rfl (by decide)).2.1⟩

/-- C9: remove never fails and, when a strong-pullup line is present,
drives it inactive before unregistering the master device, from any
prior state. -/
theorem remove_deactivates_strong_pullup (cfg : Config) (s : W1State) :
    (w1_gpio_remove cfg s).2.2 = 0 ∧
    (cfg.has_strong_pullup = true →
      (w1_gpio_remove cfg s).1.strong_pullup_level = false ∧
      (w1_gpio_remove cfg s).2.1 =
        [Event.gpiodSet Line.strongPullup 0, Event.removeMasterDevice]) := by
  by_cases hsp : cfg.has_strong_pullup <;>
    simp [w1_gpio_remove, gpiodSetValue, hsp]

/-- Witness for C9 from a state in which the strong-pullup line is still
active. -/
theorem remove_deactivates_strong_pullup_witness :
    (w1_gpio_remove ⟨true, false⟩
        { s0 with strong_pullup_level := true }).2.2 = 0 ∧
    (w1_gpio_remove ⟨true, false⟩
        { s0 with strong_pullup_level := true }).1.strong_pullup_level =
      false :=
  ⟨(remove_deactivates_strong_pullup ⟨true, false⟩
      { s0 with strong_pullup_level := true }).1,
   ((remove_deactivates_strong_pullup ⟨true, false⟩
      { s0 with strong_pullup_level := true }).2 rfl).1⟩

/-- C10: read_bit modifies nothing, write_bit modifies only the level of
the line it drives, and any sequence of bit reads and writes preserves
the armed strong-pullup duration and the strong-pullup line level. -/
theorem bit_ops_frame (cfg : Config) (s : W1State) :
    (w1_gpio_read_bit s).1 = s ∧
    (∀ b, (w1_gpio_write_bit cfg s b).1.strong_pullup_duration =
        s.strong_pullup_duration ∧
      (w1_gpio_write_bit cfg s b).1.strong_pullup_level =
        s.strong_pullup_level ∧
      (cfg.has_pulldown = true →
        (w1_gpio_write_bit cfg s b).1.data_level = s.data_level) ∧
      (cfg.has_pulldown = false →
        (w1_gpio_write_bit cfg s b).1.pulldown_level = s.pulldown_level)) ∧
    (∀ ops, (runBitOps cfg s ops).strong_pullup_duration =
        s.strong_pullup_duration ∧
      (runBitOps cfg s ops).strong_pullup_level = s.strong_pullup_level) := by
  refine ⟨rfl, ?_, ?_⟩
  · intro b
    by_cases hpd : cfg.has_pulldown <;>
      simp [w1_gpio_write_bit, gpiodSetValue, hpd]
  · intro ops
    induction ops generalizing s with
    | nil => exact ⟨rfl, rfl⟩
    | cons op rest ih =>
      cases op with
      | readBit => simpa [runBitOps, w1_gpio_read_bit] using ih s
      | writeBit b =>
        have hw := ih (w1_gpio_write_bit cfg s b).1
        by_cases hpd : cfg.has_pulldown <;>
          simp [runBitOps, w1_gpio_write_bit, gpiodSetValue, hpd] at hw ⊢ <;>
          exact hw

/-- Witness for C10: a write-read-write sequence preserves an armed
duration of 7, and a write through the pull-down line leaves the data
line alone. -/
theorem bit_ops_frame_witness :
    (runBitOps ⟨false, true⟩ { s0 with strong_pullup_duration := 7 }
        [BitOp.writeBit 1, BitOp.readBit, BitOp.writeBit 0]).strong_pullup_duration =
      { s0 with strong_pullup_duration := 7 }.strong_pullup_duration ∧
    (w1_gpio_write_bit ⟨false, true⟩ s0 1).1.data_level = s0.data_level :=
  ⟨((bit_ops_frame ⟨false, true⟩
      { s0 with strong_pullup_duration := 7 }).2.2
      [BitOp.writeBit 1, BitOp.readBit, BitOp.writeBit 0]).1,
   ((bit_ops_frame ⟨false, true⟩ s0).2.1 1).2.2.1 rfl⟩

end W1Gpio
